import Mathlib

/-!
Verification of the `satisfactory-server-aws` repository.

The repository consists of a CDK stack (`server-hosting/server-hosting-stack.ts`)
and three AWS Lambda handlers (`server-hosting/lambda/start.ts`, `stop.ts`,
`reboot.ts`).  This file gives a shallow embedding of those sources and proves
the specification claims about them.

Modelling conventions:
* JavaScript values passed to `JSON.stringify` are modelled by the inductive
  `Json`; `stringify` models `JSON.stringify` on such values.
* The AWS SDK / CloudFormation provider is an external collaborator.  Its
  behaviour is a parameter: the lambda `send` call is a function
  `EC2Command → SendResult`, and deploy-time provider-produced values
  (instance id, generated bucket name, asset locations) are a
  `ProviderOutputs` record.
-/

namespace SatisfactoryServer

/-- Model of the JavaScript values that reach `JSON.stringify` in the lambda
handlers (provider responses and thrown errors). -/
inductive Json where
  | null : Json
  | bool : Bool → Json
  | num : Int → Json
  | str : String → Json
  | arr : List Json → Json
  | obj : List (String × Json) → Json

mutual

/-- Model of `JSON.stringify` on `Json` values (object braces written with
escapes). -/
def stringify : Json → String
  | Json.null => "null"
  | Json.bool true => "true"
  | Json.bool false => "false"
  | Json.num n => Int.repr n
  | Json.str s => "\"" ++ s ++ "\""
  | Json.arr xs => "[" ++ stringifyArray xs ++ "]"
  | Json.obj fs => "\x7b" ++ stringifyMembers fs ++ "\x7d"

/-- Comma-separated serialization of a JSON array's elements. -/
def stringifyArray : List Json → String
  | [] => ""
  | [x] => stringify x
  | x :: y :: xs => stringify x ++ "," ++ stringifyArray (y :: xs)

/-- Comma-separated serialization of a JSON object's members. -/
def stringifyMembers : List (String × Json) → String
  | [] => ""
  | [(k, v)] => "\"" ++ k ++ "\":" ++ stringify v
  | (k, v) :: m :: fs => "\"" ++ k ++ "\":" ++ stringify v ++ "," ++ stringifyMembers (m :: fs)

end

/-- `Nat.toDigitsCore` never shrinks the accumulator. -/
theorem length_le_toDigitsCore (b : Nat) :
    ∀ (fuel n : Nat) (ds : List Char), ds.length ≤ (Nat.toDigitsCore b fuel n ds).length := by
  intro fuel
  induction fuel with
  | zero => intro n ds; simp [Nat.toDigitsCore]
  | succ fuel ih =>
    intro n ds
    simp only [Nat.toDigitsCore]
    split
    · simp
    · exact le_trans (by simp) (ih _ _)

/-- The digit list of a natural number is nonempty. -/
theorem one_le_length_toDigits (b n : Nat) : 1 ≤ (Nat.toDigits b n).length := by
  have h : Nat.toDigits b n =
      if n / b = 0 then [(n % b).digitChar]
      else Nat.toDigitsCore b n (n / b) [(n % b).digitChar] := rfl
  rw [h]
  split
  · simp
  · exact le_trans (by simp) (length_le_toDigitsCore b _ _ _)

/-- A string of positive length is not the empty string. -/
theorem ne_empty_of_length_pos (s : String) (h : 0 < s.length) : s ≠ "" := by
  intro hc
  subst hc
  simp at h

/-- `Nat.repr` never returns the empty string. -/
theorem nat_repr_ne_empty (n : Nat) : Nat.repr n ≠ "" := by
  apply ne_empty_of_length_pos
  unfold Nat.repr
  have h := one_le_length_toDigits 10 n
  simpa [List.asString, String.length] using h

/-- `Int.repr` never returns the empty string. -/
theorem int_repr_ne_empty (n : Int) : Int.repr n ≠ "" := by
  cases n with
  | ofNat m => simpa [Int.repr] using nat_repr_ne_empty m
  | negSucc m =>
    apply ne_empty_of_length_pos
    simp only [Int.repr, String.length_append]
    have h : 0 < "-".length := by decide
    omega

/-- `stringify` always produces a nonempty string. -/
theorem stringify_ne_empty (j : Json) : stringify j ≠ "" := by
  cases j with
  | null => decide
  | bool b => cases b <;> decide
  | num n => simpa [stringify] using int_repr_ne_empty n
  | str s =>
    apply ne_empty_of_length_pos
    simp only [stringify, String.length_append]
    have h : 0 < "\"".length := by decide
    omega
  | arr xs =>
    apply ne_empty_of_length_pos
    simp only [stringify, String.length_append]
    have h : 0 < "[".length := by decide
    omega
  | obj fs =>
    apply ne_empty_of_length_pos
    simp only [stringify, String.length_append]
    have h : 0 < "\x7b".length := by decide
    omega

/-!
## The three lambda handlers

Embedding of `server-hosting/lambda/start.ts`, `stop.ts` and `reboot.ts`.
Each file exports `handler = async () => ...` which
1. reads `process.env.INSTANCE_ID` (possibly undefined),
2. builds a `{Start,Stop,Reboot}InstancesCommand` with `InstanceIds: [instanceId!]`,
3. awaits `client.send(command)` in a `try`,
4. returns a 200 response whose body serializes either the provider response
   or the caught error.
-/

/-- `process.env` as the handlers read it: `INSTANCE_ID` and `AWS_REGION`,
either of which may be undefined. -/
structure LambdaEnv where
  instanceId : Option String
  awsRegion : Option String

/-- Kind of EC2 control command sent by a handler. -/
inductive EC2CommandKind where
  | startInstances : EC2CommandKind
  | stopInstances : EC2CommandKind
  | rebootInstances : EC2CommandKind
deriving DecidableEq

/-- An EC2 control command: its kind and the `InstanceIds` array.  The source
passes `[instanceId!]`, a possibly-undefined value, so elements are
`Option String`. -/
structure EC2Command where
  kind : EC2CommandKind
  instanceIds : List (Option String)
deriving DecidableEq

/-- Outcome of `client.send`: a provider response, or a thrown error. -/
def SendResult : Type := Except Json Json

/-- The JSON body `\x7b message, response \x7d` each handler returns
(before the final `JSON.stringify` of the body object). -/
structure ControlBody where
  message : String
  response : String
deriving DecidableEq

/-- The handler's return value: status code, content-type header, body. -/
structure LambdaResponse where
  statusCode : Nat
  contentType : String
  body : ControlBody
deriving DecidableEq

/-- The command built by `start.ts`: `new StartInstancesCommand(\x7b InstanceIds: [instanceId!] \x7d)`. -/
def startCommand (env : LambdaEnv) : EC2Command :=
  { kind := EC2CommandKind.startInstances, instanceIds := [env.instanceId] }

/-- The command built by `stop.ts`. -/
def stopCommand (env : LambdaEnv) : EC2Command :=
  { kind := EC2CommandKind.stopInstances, instanceIds := [env.instanceId] }

/-- The command built by `reboot.ts`. -/
def rebootCommand (env : LambdaEnv) : EC2Command :=
  { kind := EC2CommandKind.rebootInstances, instanceIds := [env.instanceId] }

/-- `handler` of `server-hosting/lambda/start.ts`. -/
def startHandler (env : LambdaEnv) (send : EC2Command → SendResult) : LambdaResponse :=
  match send (startCommand env) with
  | Except.ok r =>
    { statusCode := 200, contentType := "text/json",
      body := { message := "Started satisfactory server", response := stringify r } }
  | Except.error e =>
    { statusCode := 200, contentType := "text/json",
      body := { message := "Failed to start satisfactory server", response := stringify e } }

/-- `handler` of `server-hosting/lambda/stop.ts`. -/
def stopHandler (env : LambdaEnv) (send : EC2Command → SendResult) : LambdaResponse :=
  match send (stopCommand env) with
  | Except.ok r =>
    { statusCode := 200, contentType := "text/json",
      body := { message := "Stopped satisfactory server", response := stringify r } }
  | Except.error e =>
    { statusCode := 200, contentType := "text/json",
      body := { message := "Failed to stop satisfactory server", response := stringify e } }

/-- `handler` of `server-hosting/lambda/reboot.ts`. -/
def rebootHandler (env : LambdaEnv) (send : EC2Command → SendResult) : LambdaResponse :=
  match send (rebootCommand env) with
  | Except.ok r =>
    { statusCode := 200, contentType := "text/json",
      body := { message := "Rebooted satisfactory server", response := stringify r } }
  | Except.error e =>
    { statusCode := 200, contentType := "text/json",
      body := { message := "Failed to reboot satisfactory server", response := stringify e } }

/-- An incoming HTTP request at the API Gateway endpoint: body and query
parameters.  The handlers declare no parameters (`async () => ...`), so the
request never reaches them; these wrappers model API Gateway invoking the
handler for a given request. -/
structure HttpRequest where
  rawBody : String
  queryParams : List (String × String)

/-- `GET /start` endpoint invocation: the request is passed by the platform
but the handler takes no parameters, so it is dropped. -/
def startEndpointInvoke (env : LambdaEnv) (send : EC2Command → SendResult)
    (_req : HttpRequest) : LambdaResponse :=
  startHandler env send

/-- `GET /stop` endpoint invocation. -/
def stopEndpointInvoke (env : LambdaEnv) (send : EC2Command → SendResult)
    (_req : HttpRequest) : LambdaResponse :=
  stopHandler env send

/-- `GET /reboot` endpoint invocation. -/
def rebootEndpointInvoke (env : LambdaEnv) (send : EC2Command → SendResult)
    (_req : HttpRequest) : LambdaResponse :=
  rebootHandler env send

/-!
## The CDK stack

Embedding of `server-hosting/server-hosting-stack.ts`.  CDK constructs are
modelled by the data they are configured with; provider-assigned values
(instance id, auto-generated bucket name, asset bucket/key, download path)
are collected in `ProviderOutputs`.
-/

/-- Modelled from the spec: the stack imports `Config` from `./config`, a file
not among the sources.  Spec §6 lists the deployment configuration fields:
account id (string), network id (optional string), subnet id (optional
string), availability zone (optional string), bucket name (optional string),
control-API enabled (boolean, which per §8 may also be absent), experimental
build enabled (boolean).  Optional strings are encoded as `String` with `""`
denoting absence, matching the JavaScript truthiness tests (`if (vpcId)`,
`if (subnetId && availabilityZone)`, `if (bucketName)`) in the stack code;
the possibly-absent control-API flag is an `Option Bool`. -/
structure Config where
  account : String
  vpcId : String
  subnetId : String
  availabilityZone : String
  bucketName : String
  restartApi : Option Bool
  useExperimentalBuild : Bool

/-- JavaScript template-literal rendering of a boolean. -/
def boolStr : Bool → String
  | true => "true"
  | false => "false"

/-- A VPC reference: `Vpc.fromLookup` with an explicit `vpcId`, or with
`isDefault: true`. -/
inductive IVpc where
  | fromLookupById : String → IVpc
  | fromLookupDefault : IVpc
deriving DecidableEq

/-- `lookUpOrDefaultVpc` from the stack constructor: look the VPC up when a
(truthy) id is given, otherwise use the default VPC. -/
def lookUpOrDefaultVpc (vpcId : String) : IVpc :=
  if vpcId ≠ "" then IVpc.fromLookupById vpcId
  else IVpc.fromLookupDefault

/-- A subnet selection: one exact subnet via `Subnet.fromSubnetAttributes`,
or `\x7b subnetType: SubnetType.PUBLIC \x7d`. -/
inductive SubnetSelection where
  | fromSubnetAttributes : String → String → SubnetSelection
  | publicSubnets : SubnetSelection
deriving DecidableEq

/-- `publicOrLookupSubnet` from the stack constructor: when both the subnet id
and the availability zone are truthy, select that exact subnet; otherwise any
public subnet. -/
def publicOrLookupSubnet (subnetId availabilityZone : String) : SubnetSelection :=
  if subnetId ≠ "" ∧ availabilityZone ≠ "" then
    SubnetSelection.fromSubnetAttributes subnetId availabilityZone
  else SubnetSelection.publicSubnets

/-- Traffic source of an ingress rule. -/
inductive Peer where
  | anyIpv4 : Peer
deriving DecidableEq

/-- Protocol of an ingress rule (only UDP rules appear in the stack). -/
inductive Protocol where
  | udp : Protocol
deriving DecidableEq

/-- One `addIngressRule` call on the security group. -/
structure IngressRule where
  peer : Peer
  protocol : Protocol
  port : Nat
  description : String
deriving DecidableEq

/-- A saves-bucket reference: `Bucket.fromBucketName` for an existing bucket,
or `new Bucket(...)` with a provider-generated name. -/
inductive IBucket where
  | fromBucketName : String → IBucket
  | newBucket : IBucket
deriving DecidableEq

/-- `findOrCreateBucket` from the stack constructor: look the bucket up when a
(truthy) name is given, otherwise create a new bucket with an auto-generated
name. -/
def findOrCreateBucket (bucketName : String) : IBucket :=
  if bucketName ≠ "" then IBucket.fromBucketName bucketName
  else IBucket.newBucket

/-- Number of buckets the stack creates for a given resolution. -/
def newBucketsCreated : IBucket → Nat
  | IBucket.fromBucketName _ => 0
  | IBucket.newBucket => 1

/-- Values assigned by the cloud provider / CDK asset machinery at deploy
time, opaque to the stack code: the instance id, the generated name of a
newly created bucket, the staging location of the install-script asset, and
the local path `addS3DownloadCommand` downloads it to. -/
structure ProviderOutputs where
  instanceId : String
  generatedBucketName : String
  installAssetBucketName : String
  installAssetObjectKey : String
  installAssetLocalPath : String

/-- The runtime name of a bucket reference (for a created bucket,
`bucketName` resolves to the provider-generated name). -/
def bucketNameOf (ext : ProviderOutputs) : IBucket → String
  | IBucket.fromBucketName n => n
  | IBucket.newBucket => ext.generatedBucketName

/-- One user-data command of the instance. -/
inductive UserDataCommand where
  | shellCommand : String → UserDataCommand
  | s3Download : String → String → String → UserDataCommand
  | executeFile : String → String → UserDataCommand
deriving DecidableEq

/-- Who receives a permission grant. -/
inductive Grantee where
  | serverRole : Grantee
deriving DecidableEq

/-- Access level of a bucket grant. -/
inductive GrantAccess where
  | read : GrantAccess
  | readWrite : GrantAccess
deriving DecidableEq

/-- A grant on the saves bucket (`savesBucket.grantReadWrite(server.role)`). -/
structure BucketGrant where
  bucket : IBucket
  grantee : Grantee
  access : GrantAccess
deriving DecidableEq

/-- The `HandlerType` union of the stack file: `"Start" | "Stop" | "Reboot"`. -/
inductive HandlerType where
  | Start : HandlerType
  | Stop : HandlerType
  | Reboot : HandlerType
deriving DecidableEq

/-- The string value of a `HandlerType`. -/
def HandlerType.name : HandlerType → String
  | HandlerType.Start => "Start"
  | HandlerType.Stop => "Stop"
  | HandlerType.Reboot => "Reboot"

/-- `handler.toLowerCase()` on the three values of the union. -/
def HandlerType.lowerName : HandlerType → String
  | HandlerType.Start => "start"
  | HandlerType.Stop => "stop"
  | HandlerType.Reboot => "reboot"

/-- One control lambda as configured by `createLambda`: the Node function, its
role policy, and the API Gateway resource and method. -/
structure ControlLambda where
  handlerType : HandlerType
  entry : String
  description : String
  timeoutSeconds : Nat
  envInstanceId : String
  runtime : String
  policyActions : List String
  policyResources : List String
  endpointPath : String
  endpointMethod : String
deriving DecidableEq

/-- `createLambda` from the stack file: builds the `NodejsFunction`, adds the
`ec2:\x7bhandler\x7dInstances` policy scoped to the instance arn, and adds the
`GET` method on the `handler.toLowerCase()` resource of the rest api root. -/
def createLambda (account : String) (instanceId : String) (handler : HandlerType) :
    ControlLambda :=
  { handlerType := handler
    entry := "./server-hosting/lambda/" ++ handler.lowerName ++ ".ts"
    description := handler.name ++ " game server"
    timeoutSeconds := 10
    envInstanceId := instanceId
    runtime := "NODEJS_20_X"
    policyActions := ["ec2:" ++ handler.name ++ "Instances"]
    policyResources := ["arn:aws:ec2:*:" ++ account ++ ":instance/" ++ instanceId]
    endpointPath := "/" ++ handler.lowerName
    endpointMethod := "GET" }

/-- The guard of the control-api block:
`Config.restartApi && Config.restartApi === true`. -/
def restartApiEnabled : Option Bool → Bool
  | some b => b && (b == true)
  | none => false

/-- The resources declared by `ServerHostingStack`'s constructor. -/
structure ServerHostingStack where
  vpc : IVpc
  vpcSubnets : SubnetSelection
  securityGroupIngress : List IngressRule
  serverManagedPolicies : List String
  savesBucket : IBucket
  savesBucketGrant : BucketGrant
  installAssetReadGrantees : List Grantee
  userDataCommands : List UserDataCommand
  restApiCreated : Bool
  controlLambdas : List ControlLambda

/-- The constructor of `ServerHostingStack`, as a function of the deployment
configuration and the provider-assigned values. -/
def serverHostingStack (cfg : Config) (ext : ProviderOutputs) : ServerHostingStack :=
  let vpc := lookUpOrDefaultVpc cfg.vpcId
  let vpcSubnets := publicOrLookupSubnet cfg.subnetId cfg.availabilityZone
  let securityGroupIngress : List IngressRule :=
    [ { peer := Peer.anyIpv4, protocol := Protocol.udp, port := 7777,
        description := "Game port" },
      { peer := Peer.anyIpv4, protocol := Protocol.udp, port := 15000,
        description := "Beacon port" },
      { peer := Peer.anyIpv4, protocol := Protocol.udp, port := 15777,
        description := "Query port" } ]
  let savesBucket := findOrCreateBucket cfg.bucketName
  let userDataCommands : List UserDataCommand :=
    [ UserDataCommand.shellCommand "sudo apt-get install unzip -y",
      UserDataCommand.shellCommand
        "curl \"https://awscli.amazonaws.com/awscli-exe-linux-x86_64.zip\" -o \"awscliv2.zip\" && unzip awscliv2.zip && ./aws/install",
      UserDataCommand.s3Download ext.installAssetBucketName ext.installAssetObjectKey
        ext.installAssetLocalPath,
      UserDataCommand.executeFile ext.installAssetLocalPath
        (bucketNameOf ext savesBucket ++ " " ++ boolStr cfg.useExperimentalBuild) ]
  let enabled := restartApiEnabled cfg.restartApi
  { vpc := vpc
    vpcSubnets := vpcSubnets
    securityGroupIngress := securityGroupIngress
    serverManagedPolicies := ["AmazonSSMManagedInstanceCore"]
    savesBucket := savesBucket
    savesBucketGrant :=
      { bucket := savesBucket, grantee := Grantee.serverRole, access := GrantAccess.readWrite }
    installAssetReadGrantees := [Grantee.serverRole]
    userDataCommands := userDataCommands
    restApiCreated := enabled
    controlLambdas :=
      if enabled then
        [ createLambda cfg.account ext.instanceId HandlerType.Start,
          createLambda cfg.account ext.instanceId HandlerType.Stop,
          createLambda cfg.account ext.instanceId HandlerType.Reboot ]
      else [] }

/-- The common response shape of both handler branches: status 200,
`text/json` content type, and a body with the given message and the
serialization of the given payload. -/
def controlResponse (msg : String) (payload : Json) : LambdaResponse :=
  { statusCode := 200, contentType := "text/json",
    body := { message := msg, response := stringify payload } }

/-- The single `arguments` string `addExecuteFileCommand` receives for a list
of positional arguments: the space-joined words, as the shell receives them. -/
def positionalArgs (args : List String) : String :=
  String.intercalate " " args

/-!
## Sample inputs used by the witnesses
-/

/-- A sample lambda environment with both variables set. -/
def envSample : LambdaEnv :=
  { instanceId := some "i-0123456789abcdef0", awsRegion := some "us-east-1" }

/-- A sample thrown provider error. -/
def errSample : Json :=
  Json.obj [("name", Json.str "AccessDenied")]

/-- A sample provider acknowledgment. -/
def okSample : Json :=
  Json.obj [("StartingInstances", Json.arr [])]

/-- A provider that rejects every command with `errSample`. -/
def sendErrSample : EC2Command → SendResult :=
  fun _ => Except.error errSample

/-- A provider that accepts every command with acknowledgment `okSample`. -/
def sendOkSample : EC2Command → SendResult :=
  fun _ => Except.ok okSample

/-- Sample provider-assigned deploy-time values. -/
def extSample : ProviderOutputs :=
  { instanceId := "i-0123456789abcdef0"
    generatedBucketName := "serverhostingstack-savesbucket-generated"
    installAssetBucketName := "cdk-assets-bucket"
    installAssetObjectKey := "0a1b2c.zip"
    installAssetLocalPath := "/tmp/install.sh"
    }

/-- A configuration with every optional field supplied and the control api on. -/
def cfgAllSet : Config :=
  { account := "123456789012"
    vpcId := "vpc-0aa11bb22cc33dd44"
    subnetId := "subnet-0aa11bb22cc33dd44"
    availabilityZone := "eu-west-1a"
    bucketName := "my-factory-saves"
    restartApi := some true
    useExperimentalBuild := true
    }

/-- A configuration with every optional field absent and the control api
flag absent. -/
def cfgAllAbsent : Config :=
  { account := "123456789012"
    vpcId := ""
    subnetId := ""
    availabilityZone := ""
    bucketName := ""
    restartApi := none
    useExperimentalBuild := false
    }

/-- A configuration supplying only the subnet id, not the availability zone. -/
def cfgOnlySubnetId : Config :=
  { cfgAllAbsent with subnetId := "subnet-0aa11bb22cc33dd44" }

/-- A configuration supplying only the availability zone, not the subnet id. -/
def cfgOnlyAz : Config :=
  { cfgAllAbsent with availabilityZone := "eu-west-1a" }

/-- A configuration with the control api flag present but false. -/
def cfgApiFalse : Config :=
  { cfgAllAbsent with restartApi := some false }

/-!
## Claims about the lambda handlers
-/

/-- Claim C1: for every control verb in start, stop, reboot, when the provider
call returns an error, the handler returns a response with statusCode 200
whose body message is "Failed to \x7bverb\x7d satisfactory server" and whose
body response field is a nonempty string serialization of that error. -/
theorem c1_failure_responses (env : LambdaEnv) (send : EC2Command → SendResult) (e : Json) :
    (send (startCommand env) = Except.error e →
      startHandler env send = controlResponse "Failed to start satisfactory server" e) ∧
    (send (stopCommand env) = Except.error e →
      stopHandler env send = controlResponse "Failed to stop satisfactory server" e) ∧
    (send (rebootCommand env) = Except.error e →
      rebootHandler env send = controlResponse "Failed to reboot satisfactory server" e) ∧
    stringify e ≠ "" := by
  refine ⟨fun h => ?_, fun h => ?_, fun h => ?_, stringify_ne_empty e⟩
  · simp only [startHandler, h, controlResponse]
  · simp only [stopHandler, h, controlResponse]
  · simp only [rebootHandler, h, controlResponse]

/-- Witness for C1 at a concrete environment and a concrete rejected call. -/
theorem c1_failure_responses_witness :
    startHandler envSample sendErrSample =
      controlResponse "Failed to start satisfactory server" errSample ∧
    stopHandler envSample sendErrSample =
      controlResponse "Failed to stop satisfactory server" errSample ∧
    rebootHandler envSample sendErrSample =
      controlResponse "Failed to reboot satisfactory server" errSample ∧
    stringify errSample ≠ "" := by
  have h := c1_failure_responses envSample sendErrSample errSample
  exact ⟨h.1 rfl, h.2.1 rfl, h.2.2.1 rfl, h.2.2.2⟩

/-- Claim C2: for every control verb, when the provider accepts the call, the
handler returns statusCode 200 with body message "\x7bVerb\x7ded satisfactory
server" and a body response field containing the serialized raw provider
acknowledgment. -/
theorem c2_success_responses (env : LambdaEnv) (send : EC2Command → SendResult) (r : Json) :
    (send (startCommand env) = Except.ok r →
      startHandler env send = controlResponse "Started satisfactory server" r) ∧
    (send (stopCommand env) = Except.ok r →
      stopHandler env send = controlResponse "Stopped satisfactory server" r) ∧
    (send (rebootCommand env) = Except.ok r →
      rebootHandler env send = controlResponse "Rebooted satisfactory server" r) := by
  refine ⟨fun h => ?_, fun h => ?_, fun h => ?_⟩
  · simp only [startHandler, h, controlResponse]
  · simp only [stopHandler, h, controlResponse]
  · simp only [rebootHandler, h, controlResponse]

/-- Witness for C2 at a concrete environment and a concrete accepted call. -/
theorem c2_success_responses_witness :
    startHandler envSample sendOkSample =
      controlResponse "Started satisfactory server" okSample ∧
    stopHandler envSample sendOkSample =
      controlResponse "Stopped satisfactory server" okSample ∧
    rebootHandler envSample sendOkSample =
      controlResponse "Rebooted satisfactory server" okSample := by
  have h := c2_success_responses envSample sendOkSample okSample
  exact ⟨h.1 rfl, h.2.1 rfl, h.2.2 rfl⟩

/-- Claim C9: each handler's response depends only on the execution
environment and the provider outcome, never on the incoming HTTP request:
two invocations with the same environment and provider but different request
bodies or query parameters return identical responses. -/
theorem c9_response_independent_of_request (env : LambdaEnv)
    (send : EC2Command → SendResult) (req1 req2 : HttpRequest) :
    startEndpointInvoke env send req1 = startEndpointInvoke env send req2 ∧
    stopEndpointInvoke env send req1 = stopEndpointInvoke env send req2 ∧
    rebootEndpointInvoke env send req1 = rebootEndpointInvoke env send req2 :=
  ⟨rfl, rfl, rfl⟩

/-- Claim C10: each handler is total: for every environment, including one
where the instance id is unset or empty, the command is issued with the
unchecked value, and the handler returns a well-formed 200 response from one
of its two branches. -/
theorem c10_handlers_total (env : LambdaEnv) (send : EC2Command → SendResult) :
    (startCommand env).instanceIds = [env.instanceId] ∧
    (stopCommand env).instanceIds = [env.instanceId] ∧
    (rebootCommand env).instanceIds = [env.instanceId] ∧
    (startHandler env send).statusCode = 200 ∧
    (stopHandler env send).statusCode = 200 ∧
    (rebootHandler env send).statusCode = 200 ∧
    ((∃ r, send (startCommand env) = Except.ok r ∧
        startHandler env send = controlResponse "Started satisfactory server" r) ∨
     (∃ e, send (startCommand env) = Except.error e ∧
        startHandler env send = controlResponse "Failed to start satisfactory server" e)) ∧
    ((∃ r, send (stopCommand env) = Except.ok r ∧
        stopHandler env send = controlResponse "Stopped satisfactory server" r) ∨
     (∃ e, send (stopCommand env) = Except.error e ∧
        stopHandler env send = controlResponse "Failed to stop satisfactory server" e)) ∧
    ((∃ r, send (rebootCommand env) = Except.ok r ∧
        rebootHandler env send = controlResponse "Rebooted satisfactory server" r) ∨
     (∃ e, send (rebootCommand env) = Except.error e ∧
        rebootHandler env send = controlResponse "Failed to reboot satisfactory server" e)) := by
  refine ⟨rfl, rfl, rfl, ?_, ?_, ?_, ?_, ?_, ?_⟩
  · cases h : send (startCommand env) <;> simp [startHandler, h, controlResponse]
  · cases h : send (stopCommand env) <;> simp [stopHandler, h, controlResponse]
  · cases h : send (rebootCommand env) <;> simp [rebootHandler, h, controlResponse]
  · cases h : send (startCommand env) with
    | ok r => exact Or.inl ⟨r, rfl, by simp only [startHandler, h, controlResponse]⟩
    | error e => exact Or.inr ⟨e, rfl, by simp only [startHandler, h, controlResponse]⟩
  · cases h : send (stopCommand env) with
    | ok r => exact Or.inl ⟨r, rfl, by simp only [stopHandler, h, controlResponse]⟩
    | error e => exact Or.inr ⟨e, rfl, by simp only [stopHandler, h, controlResponse]⟩
  · cases h : send (rebootCommand env) with
    | ok r => exact Or.inl ⟨r, rfl, by simp only [rebootHandler, h, controlResponse]⟩
    | error e => exact Or.inr ⟨e, rfl, by simp only [rebootHandler, h, controlResponse]⟩

/-!
## Claims about the stack
-/

/-- `positionalArgs` of two words is their space-joined concatenation,
exactly the `arguments` template of `addExecuteFileCommand`. -/
theorem positionalArgs_pair (a b : String) : positionalArgs [a, b] = a ++ " " ++ b := rfl

/-- Claim C3: when the control-API flag is false or absent, the stack creates
none of the three endpoints and none of their instance-control permission
grants; when the flag is true, all three endpoints and their grants are
created. -/
theorem c3_control_api_gating (cfg : Config) (ext : ProviderOutputs) :
    ((cfg.restartApi = none ∨ cfg.restartApi = some false) →
      (serverHostingStack cfg ext).restApiCreated = false ∧
      (serverHostingStack cfg ext).controlLambdas = []) ∧
    (cfg.restartApi = some true →
      (serverHostingStack cfg ext).restApiCreated = true ∧
      (serverHostingStack cfg ext).controlLambdas =
        [ createLambda cfg.account ext.instanceId HandlerType.Start,
          createLambda cfg.account ext.instanceId HandlerType.Stop,
          createLambda cfg.account ext.instanceId HandlerType.Reboot ] ∧
      ((serverHostingStack cfg ext).controlLambdas.map fun l => l.endpointPath) =
        ["/start", "/stop", "/reboot"] ∧
      ((serverHostingStack cfg ext).controlLambdas.map fun l => l.endpointMethod) =
        ["GET", "GET", "GET"] ∧
      ((serverHostingStack cfg ext).controlLambdas.map fun l => l.policyActions) =
        [["ec2:StartInstances"], ["ec2:StopInstances"], ["ec2:RebootInstances"]] ∧
      ((serverHostingStack cfg ext).controlLambdas.map fun l => l.policyResources) =
        [ ["arn:aws:ec2:*:" ++ cfg.account ++ ":instance/" ++ ext.instanceId],
          ["arn:aws:ec2:*:" ++ cfg.account ++ ":instance/" ++ ext.instanceId],
          ["arn:aws:ec2:*:" ++ cfg.account ++ ":instance/" ++ ext.instanceId] ]) := by
  constructor
  · intro h
    have he : restartApiEnabled cfg.restartApi = false := by
      rcases h with h | h <;> simp [restartApiEnabled, h]
    exact ⟨by simp [serverHostingStack, he], by simp [serverHostingStack, he]⟩
  · intro h
    have he : restartApiEnabled cfg.restartApi = true := by simp [restartApiEnabled, h]
    refine ⟨by simp [serverHostingStack, he], by simp [serverHostingStack, he], ?_, ?_, ?_, ?_⟩ <;>
      simp [serverHostingStack, he, createLambda, HandlerType.name, HandlerType.lowerName]

/-- Witness for C3: flag absent and flag false produce no control lambdas;
flag true produces the three endpoints. -/
theorem c3_control_api_gating_witness :
    (serverHostingStack cfgAllAbsent extSample).controlLambdas = [] ∧
    (serverHostingStack cfgApiFalse extSample).controlLambdas = [] ∧
    ((serverHostingStack cfgAllSet extSample).controlLambdas.map fun l => l.endpointPath) =
      ["/start", "/stop", "/reboot"] :=
  ⟨((c3_control_api_gating cfgAllAbsent extSample).1 (Or.inl rfl)).2,
   ((c3_control_api_gating cfgApiFalse extSample).1 (Or.inr rfl)).2,
   ((c3_control_api_gating cfgAllSet extSample).2 rfl).2.2.1⟩

/-- Claim C4: a supplied network id is looked up by identifier (no default
lookup); an absent network id resolves to the account's default network. -/
theorem c4_vpc_resolution (cfg : Config) (ext : ProviderOutputs) :
    (serverHostingStack cfg ext).vpc = lookUpOrDefaultVpc cfg.vpcId ∧
    (cfg.vpcId ≠ "" →
      (serverHostingStack cfg ext).vpc = IVpc.fromLookupById cfg.vpcId) ∧
    (cfg.vpcId = "" →
      (serverHostingStack cfg ext).vpc = IVpc.fromLookupDefault) := by
  refine ⟨rfl, fun h => ?_, fun h => ?_⟩
  · simp [serverHostingStack, lookUpOrDefaultVpc, h]
  · simp [serverHostingStack, lookUpOrDefaultVpc, h]

/-- Witness for C4: a concrete supplied id binds to that network, a concrete
absent id binds to the default network. -/
theorem c4_vpc_resolution_witness :
    (serverHostingStack cfgAllSet extSample).vpc =
      IVpc.fromLookupById "vpc-0aa11bb22cc33dd44" ∧
    (serverHostingStack cfgAllAbsent extSample).vpc = IVpc.fromLookupDefault :=
  ⟨(c4_vpc_resolution cfgAllSet extSample).2.1 (by decide),
   (c4_vpc_resolution cfgAllAbsent extSample).2.2 rfl⟩

/-- Claim C5: with both subnet id and availability zone supplied the exact
subnet is selected; with neither, or exactly one of the two, the selection
falls through to any public subnet. -/
theorem c5_subnet_resolution (cfg : Config) (ext : ProviderOutputs) :
    (serverHostingStack cfg ext).vpcSubnets =
      publicOrLookupSubnet cfg.subnetId cfg.availabilityZone ∧
    (cfg.subnetId ≠ "" ∧ cfg.availabilityZone ≠ "" →
      (serverHostingStack cfg ext).vpcSubnets =
        SubnetSelection.fromSubnetAttributes cfg.subnetId cfg.availabilityZone) ∧
    (cfg.subnetId = "" ∨ cfg.availabilityZone = "" →
      (serverHostingStack cfg ext).vpcSubnets = SubnetSelection.publicSubnets) := by
  refine ⟨rfl, fun h => ?_, fun h => ?_⟩
  · simp [serverHostingStack, publicOrLookupSubnet, h.1, h.2]
  · rcases h with h | h <;> simp [serverHostingStack, publicOrLookupSubnet, h]

/-- Witness for C5: both supplied selects the exact subnet; neither, only the
subnet id, and only the availability zone each select any public subnet. -/
theorem c5_subnet_resolution_witness :
    (serverHostingStack cfgAllSet extSample).vpcSubnets =
      SubnetSelection.fromSubnetAttributes "subnet-0aa11bb22cc33dd44" "eu-west-1a" ∧
    (serverHostingStack cfgAllAbsent extSample).vpcSubnets = SubnetSelection.publicSubnets ∧
    (serverHostingStack cfgOnlySubnetId extSample).vpcSubnets = SubnetSelection.publicSubnets ∧
    (serverHostingStack cfgOnlyAz extSample).vpcSubnets = SubnetSelection.publicSubnets :=
  ⟨(c5_subnet_resolution cfgAllSet extSample).2.1 (by decide),
   (c5_subnet_resolution cfgAllAbsent extSample).2.2 (Or.inl rfl),
   (c5_subnet_resolution cfgOnlySubnetId extSample).2.2 (Or.inr rfl),
   (c5_subnet_resolution cfgOnlyAz extSample).2.2 (Or.inl rfl)⟩

/-- Claim C6: a supplied bucket name binds to the existing bucket and creates
no bucket; an absent name creates exactly one new bucket with a
provider-generated name; in both cases the resolved bucket gets a read-write
grant for the server role. -/
theorem c6_bucket_resolution (cfg : Config) (ext : ProviderOutputs) :
    (serverHostingStack cfg ext).savesBucket = findOrCreateBucket cfg.bucketName ∧
    (cfg.bucketName ≠ "" →
      (serverHostingStack cfg ext).savesBucket = IBucket.fromBucketName cfg.bucketName ∧
      newBucketsCreated (serverHostingStack cfg ext).savesBucket = 0 ∧
      bucketNameOf ext (serverHostingStack cfg ext).savesBucket = cfg.bucketName) ∧
    (cfg.bucketName = "" →
      (serverHostingStack cfg ext).savesBucket = IBucket.newBucket ∧
      newBucketsCreated (serverHostingStack cfg ext).savesBucket = 1 ∧
      bucketNameOf ext (serverHostingStack cfg ext).savesBucket = ext.generatedBucketName) ∧
    (serverHostingStack cfg ext).savesBucketGrant =
      { bucket := (serverHostingStack cfg ext).savesBucket,
        grantee := Grantee.serverRole, access := GrantAccess.readWrite } := by
  refine ⟨rfl, fun h => ?_, fun h => ?_, rfl⟩
  · refine ⟨?_, ?_, ?_⟩ <;>
      simp [serverHostingStack, findOrCreateBucket, newBucketsCreated, bucketNameOf, h]
  · refine ⟨?_, ?_, ?_⟩ <;>
      simp [serverHostingStack, findOrCreateBucket, newBucketsCreated, bucketNameOf, h]

/-- Witness for C6: a concrete supplied name binds without creating; a
concrete absent name creates one bucket named by the provider. -/
theorem c6_bucket_resolution_witness :
    (serverHostingStack cfgAllSet extSample).savesBucket =
      IBucket.fromBucketName "my-factory-saves" ∧
    newBucketsCreated (serverHostingStack cfgAllSet extSample).savesBucket = 0 ∧
    (serverHostingStack cfgAllAbsent extSample).savesBucket = IBucket.newBucket ∧
    newBucketsCreated (serverHostingStack cfgAllAbsent extSample).savesBucket = 1 ∧
    bucketNameOf extSample (serverHostingStack cfgAllAbsent extSample).savesBucket =
      "serverhostingstack-savesbucket-generated" :=
  ⟨((c6_bucket_resolution cfgAllSet extSample).2.1 (by decide)).1,
   ((c6_bucket_resolution cfgAllSet extSample).2.1 (by decide)).2.1,
   ((c6_bucket_resolution cfgAllAbsent extSample).2.2.1 rfl).1,
   ((c6_bucket_resolution cfgAllAbsent extSample).2.2.1 rfl).2.1,
   ((c6_bucket_resolution cfgAllAbsent extSample).2.2.1 rfl).2.2⟩

/-- Claim C7: the security group carries exactly three ingress rules,
UDP/7777, UDP/15000 and UDP/15777, each from any IPv4 address, and no other
ingress rule. -/
theorem c7_security_group_ingress (cfg : Config) (ext : ProviderOutputs) :
    (serverHostingStack cfg ext).securityGroupIngress.length = 3 ∧
    (serverHostingStack cfg ext).securityGroupIngress =
      [ { peer := Peer.anyIpv4, protocol := Protocol.udp, port := 7777,
          description := "Game port" },
        { peer := Peer.anyIpv4, protocol := Protocol.udp, port := 15000,
          description := "Beacon port" },
        { peer := Peer.anyIpv4, protocol := Protocol.udp, port := 15777,
          description := "Query port" } ] :=
  ⟨rfl, rfl⟩

/-- Claim C8: the bootstrap command sequence is, in order: install unzip,
install the AWS CLI, download the packaged installer asset, and execute it
with exactly two positional arguments, the resolved bucket name then the
experimental-build flag. -/
theorem c8_user_data_bootstrap (cfg : Config) (ext : ProviderOutputs) :
    (serverHostingStack cfg ext).userDataCommands =
      [ UserDataCommand.shellCommand "sudo apt-get install unzip -y",
        UserDataCommand.shellCommand
          "curl \"https://awscli.amazonaws.com/awscli-exe-linux-x86_64.zip\" -o \"awscliv2.zip\" && unzip awscliv2.zip && ./aws/install",
        UserDataCommand.s3Download ext.installAssetBucketName ext.installAssetObjectKey
          ext.installAssetLocalPath,
        UserDataCommand.executeFile ext.installAssetLocalPath
          (positionalArgs
            [ bucketNameOf ext (serverHostingStack cfg ext).savesBucket,
              boolStr cfg.useExperimentalBuild ]) ] := by
  rw [positionalArgs_pair]
  rfl

end SatisfactoryServer
